import Mathlib

/-!
# Verification of the beam wallet transaction-negotiation core

This development embeds the wallet data model and the operations exercised by
the wallet unit tests (`src/wallet/unittests/wallet_test.cpp`), together with a
direct embedding of `src/wallet/swaps/shared_tx_builder.cpp` and
`src/wallet/bitcoin/bitcoin_settings.h`, and proves the documented scenario and
invariant properties about them.

The wallet engine itself (`wallet.cpp`, `wallet_transaction.cpp`,
`wallet_db.cpp`) is not part of the sources here; where a definition stands in
for that missing code it is modelled from the specification and its doc comment
starts with `Modelled from the spec:`.
-/

/-! ## Wallet data model (spec §3) -/

/-- Coin key types (`Key::Type`): regular, change, coinbase, shared. -/
inductive KeyType
  | Regular
  | Change
  | Coinbase
  | Shared
deriving DecidableEq, Repr

/-- Coin status (`Coin::Status`). -/
inductive CoinStatus
  | Available
  | Maturing
  | Outgoing
  | Spent
deriving DecidableEq, Repr

/-- A wallet coin: id, value, key type, status, creating and spending tx ids.
Tx ids are abstracted to `Nat`. -/
structure Coin where
  cid : Nat
  value : Nat
  keyType : KeyType
  status : CoinStatus
  createTxId : Option Nat
  spentTxId : Option Nat
deriving DecidableEq, Repr

/-- Transaction status (`TxStatus`). -/
inductive TxStatus
  | Pending
  | InProgress
  | Registering
  | Completed
  | Failed
  | Cancelled
deriving DecidableEq, Repr

/-- Failure reasons (`TxFailureReason`, spec §7). -/
inductive TxFailureReason
  | NoInputs
  | TransactionExpired
  | InvalidPeerSignature
  | FailedToRegister
  | InvalidKernelProof
  | Cancelled
  | SwapSecondChainFailure
  | Unknown
deriving DecidableEq, Repr

/-- A tx-history row (`TxDescription`): tx id, amount, fee, change, status,
failure reason, sender flag and creation time. -/
structure TxHistoryEntry where
  txId : Nat
  amount : Nat
  fee : Nat
  change : Nat
  status : TxStatus
  failureReason : Option TxFailureReason
  sender : Bool
  createTime : Nat
deriving DecidableEq, Repr

/-- One wallet's persisted state: its coin table and its tx-history table. -/
structure WalletState where
  coins : List Coin
  history : List TxHistoryEntry
deriving DecidableEq, Repr

/-! ## Coin selection (spec §4.B) -/

/-- Total value of a list of coins. -/
def coinListSum (cs : List Coin) : Nat :=
  (cs.map Coin.value).sum

/-- The coins visible to selection: exactly the `Available` ones
(spec §5: a coin in `outgoing` is invisible to selection). -/
def availableCoins (cs : List Coin) : List Coin :=
  cs.filter (fun c => decide (c.status = CoinStatus.Available))

/-- Selection preference: a candidate beats the incumbent when it covers with a
strictly smaller total, or with the same total using fewer coins. -/
def betterSelection (a b : List Coin) : Bool :=
  decide (coinListSum a < coinListSum b) ||
    (decide (coinListSum a = coinListSum b) && decide (a.length < b.length))

/-- Pick the best candidate selection, keeping the earliest among ties. -/
def pickBestSelection : List (List Coin) → Option (List Coin)
  | [] => none
  | c :: cs => some (cs.foldl (fun best cand => if betterSelection cand best then cand else best) c)

/-- All subsets of the available coins whose total covers the target. -/
def coveringSelections (cs : List Coin) (target : Nat) : List (List Coin) :=
  (availableCoins cs).sublists.filter (fun s => decide (target ≤ coinListSum s))

/-- Modelled from the spec: `IWalletDB::selectCoins` (wallet_db.cpp, not in
src/). Greedy "fewest-coins-that-cover" policy: among the available-coin
subsets that cover the target, return one minimising spent value and then coin
count; `none` when no subset covers. -/
def selectCoins (cs : List Coin) (target : Nat) : Option (List Coin) :=
  pickBestSelection (coveringSelections cs target)

/-! ## Transfer effects on the two wallet databases -/

/-- Mark every selected coin spent by `txId`, leaving the others unchanged. -/
def markSpent (txId : Nat) (sel : List Coin) (cs : List Coin) : List Coin :=
  cs.map (fun c =>
    if decide (c.cid ∈ sel.map Coin.cid) then
      { c with status := CoinStatus.Spent, spentTxId := some txId }
    else c)

/-- Fresh coin id for a store (ids are abstract; claims never inspect them). -/
def freshCoinId (cs : List Coin) : Nat := cs.length

/-- The change coins a transfer appends: a single `Change` coin when the
remainder is positive, nothing otherwise (spec §4.B). -/
def changeCoinsOf (txId chg baseId : Nat) : List Coin :=
  if chg = 0 then []
  else [⟨baseId, chg, KeyType.Change, CoinStatus.Available, some txId, none⟩]

/-- A completed history row. -/
def completedEntry (txId amount fee chg : Nat) (sender : Bool) (time : Nat) : TxHistoryEntry :=
  ⟨txId, amount, fee, chg, TxStatus.Completed, none, sender, time⟩

/-- A failed history row. -/
def failedEntry (txId amount fee : Nat) (reason : TxFailureReason) (sender : Bool)
    (time : Nat) : TxHistoryEntry :=
  ⟨txId, amount, fee, 0, TxStatus.Failed, some reason, sender, time⟩

/-- Modelled from the spec: the end-to-end effect of a sender-initiated simple
transfer (`Wallet::transfer_money` / `SimpleTransaction`, not in src/) on both
wallet databases. On successful selection the picked coins are spent, a change
coin is produced for any remainder, the receiver gains one regular coin of the
transferred amount, and each side records one completed history row — the
receiver's `latency` ticks after the sender's. When selection cannot cover
`amount + fee` the transfer fails before inviting the peer: the sender records
one failed row with reason `NoInputs` and no coin on either side changes. -/
def simpleTransfer (txId amount fee senderTime latency : Nat)
    (sw rw : WalletState) : WalletState × WalletState :=
  match selectCoins sw.coins (amount + fee) with
  | none =>
      ({ sw with history := sw.history ++
          [failedEntry txId amount fee TxFailureReason.NoInputs true senderTime] }, rw)
  | some sel =>
      let chg := coinListSum sel - (amount + fee)
      ({ coins := markSpent txId sel sw.coins ++ changeCoinsOf txId chg (freshCoinId sw.coins),
         history := sw.history ++ [completedEntry txId amount fee chg true senderTime] },
       { coins := rw.coins ++
           [⟨freshCoinId rw.coins, amount, KeyType.Regular, CoinStatus.Available, some txId, none⟩],
         history := rw.history ++
           [completedEntry txId amount fee 0 false (senderTime + latency)] })

/-- The regular output coins a split appends, one per requested value. -/
def outputCoinsOf (txId : Nat) : List Nat → Nat → List Coin
  | [], _ => []
  | v :: vs, baseId =>
      ⟨baseId, v, KeyType.Regular, CoinStatus.Available, some txId, none⟩ ::
        outputCoinsOf txId vs (baseId + 1)

/-- Modelled from the spec: the end-to-end effect of a completed split
(`Wallet::split_coins`, not in src/) on the single wallet database. The amount
is the sum of the requested values; selection, spending and change are as for a
simple transfer, and one regular output coin per requested value is created. -/
def splitCoins (txId : Nat) (values : List Nat) (fee time : Nat)
    (w : WalletState) : WalletState :=
  let amount := values.sum
  match selectCoins w.coins (amount + fee) with
  | none =>
      { w with history := w.history ++
          [failedEntry txId amount fee TxFailureReason.NoInputs true time] }
  | some sel =>
      let chg := coinListSum sel - (amount + fee)
      let base := freshCoinId w.coins
      let chgCoins := changeCoinsOf txId chg base
      { coins := markSpent txId sel w.coins ++ chgCoins ++
          outputCoinsOf txId values (base + chgCoins.length),
        history := w.history ++ [completedEntry txId amount fee chg true time] }

/-- Modelled from the spec: the effect of a completed atomic swap
(`AtomicSwapTransaction`, not in src/) on the two native coin stores. The
seller's inputs covering `beamAmount + beamFee` are spent and a change coin is
created under the swap's tx id; the buyer ends with one available native coin
of `beamAmount` created by the swap's tx id. Per the spec, the swap succeeds
regardless of which side initiates the negotiation, so the initiator flag does
not influence the final stores; the external amount settles on the external
chain and leaves the native stores untouched. -/
def swapCoins (txId beamAmount beamFee swapAmount : Nat) (isBeamOwnerStart : Bool)
    (sw rw : WalletState) : WalletState × WalletState :=
  match selectCoins sw.coins (beamAmount + beamFee) with
  | none => (sw, rw)
  | some sel =>
      let chg := coinListSum sel - (beamAmount + beamFee)
      ({ sw with coins := markSpent txId sel sw.coins ++
          changeCoinsOf txId chg (freshCoinId sw.coins) },
       { rw with coins := rw.coins ++
          [⟨freshCoinId rw.coins, beamAmount, KeyType.Regular, CoinStatus.Available,
            some txId, none⟩] })

/-! ## Concrete stores from the test scenarios -/

/-- The sender DB of the tests (`createSenderWalletDB`): coins {5,2,1,9}, all
available and regular. -/
def senderInitialCoins : List Coin :=
  [⟨0, 5, KeyType.Regular, CoinStatus.Available, none, none⟩,
   ⟨1, 2, KeyType.Regular, CoinStatus.Available, none, none⟩,
   ⟨2, 1, KeyType.Regular, CoinStatus.Available, none, none⟩,
   ⟨3, 9, KeyType.Regular, CoinStatus.Available, none, none⟩]

/-- The sender wallet at the start of the scenarios: coins {5,2,1,9}, empty
history. -/
def senderInitialState : WalletState := ⟨senderInitialCoins, []⟩

/-- The receiver wallet at the start of the scenarios: empty. -/
def emptyWalletState : WalletState := ⟨[], []⟩

/-! ## The transaction driver state machine (spec §4.C)

The driver's state is its parameter set; we track the parameters that govern
control flow. External inputs (peer signature arrival, kernel observation) are
flags merged into the state by the dispatcher before `update` runs. -/

/-- The parameter-derived state of one transaction on one side. -/
structure TxState where
  status : TxStatus
  failureReason : Option TxFailureReason
  maxHeight : Nat
  inputsSet : Bool
  peerSigSet : Bool
  kernelObserved : Bool
  fundsOk : Bool
deriving DecidableEq, Repr

/-- A status is terminal when it is completed, failed or cancelled. -/
def isTerminalStatus : TxStatus → Bool
  | TxStatus.Completed => true
  | TxStatus.Failed => true
  | TxStatus.Cancelled => true
  | _ => false

/-- Modelled from the spec: `BaseTransaction::Update` (wallet_transaction.cpp,
not in src/). One invocation reads the current parameters and runs every step
whose preconditions are met until the transaction is terminal or blocked on
external input: terminal states are left untouched; past `max-height` a
transaction not yet confirming fails with `TransactionExpired`; input selection
runs once and fails with `NoInputs` when funds are insufficient; without the
peer's signature the driver idles; with it the transaction is registered once
and completes when its kernel is observed on chain. -/
def update (h : Nat) (s : TxState) : TxState :=
  if isTerminalStatus s.status then s
  else if s.maxHeight < h ∧ s.kernelObserved = false then
    { s with status := TxStatus.Failed,
             failureReason := some TxFailureReason.TransactionExpired }
  else
    let s1 :=
      if s.inputsSet = false then
        if s.fundsOk then { s with inputsSet := true, status := TxStatus.InProgress }
        else { s with status := TxStatus.Failed,
                      failureReason := some TxFailureReason.NoInputs }
      else s
    if isTerminalStatus s1.status then s1
    else if s1.peerSigSet = false then s1
    else
      let s2 :=
        if s1.status ≠ TxStatus.Registering then { s1 with status := TxStatus.Registering }
        else s1
      if s2.kernelObserved = false then s2
      else { s2 with status := TxStatus.Completed }

/-- Modelled from the spec: the single tx-history row one side keeps for a
transaction, mirroring the state machine's status and failure reason. -/
def sideHistory (txId amount fee time : Nat) (sender : Bool) (s : TxState) :
    List TxHistoryEntry :=
  [⟨txId, amount, fee, 0, s.status, s.failureReason, sender, time⟩]

/-! ## Curve points as formal combinations of the generators H and G

A group element is represented by its coefficients on the two independent
generators: first component the coefficient of `H` (the value generator),
second the coefficient of `G` (the blinding generator). -/

/-- A curve point as a formal `ℤ`-linear combination `a·H + b·G`. -/
abbrev PointLC : Type := ℤ × ℤ

/-- `Context::get().G * s`: the point `s·G`. -/
def mulG (s : ℤ) : PointLC := (0, s)

/-- The point `v·H`. -/
def mulH (v : ℤ) : PointLC := (v, 0)

/-- `Tag::AddValue(commitment, nullptr, amount)`: add `amount·H` to a
commitment (src/wallet/swaps/shared_tx_builder.cpp, `InitInput`). -/
def tagAddValue (c : PointLC) (amount : Nat) : PointLC := c + mulH (amount : ℤ)

/-! ## SharedTxBuilder (src/wallet/swaps/shared_tx_builder.cpp) -/

/-- Sub-transaction ids of a swap (`SubTxIndex`). -/
inductive SubTxIndex
  | BEAM_LOCK_TX
  | BEAM_REFUND_TX
  | BEAM_REDEEM_TX
  | LOCK_TX
  | REFUND_TX
  | REDEEM_TX
deriving DecidableEq, Repr

/-- The transaction parameter ids the swap builder touches (`TxParameterID`). -/
inductive TxParameterID
  | Amount
  | Fee
  | MinHeight
  | MaxHeight
  | Inputs
  | Outputs
  | PeerOffset
  | SharedBlindingFactor
  | PeerPublicSharedBlindingFactor
  | SharedCoinID
deriving DecidableEq, Repr

/-- A stored parameter value (scalar, point or height). -/
inductive ParamValue
  | scalarVal (x : ℤ)
  | pointVal (p : PointLC)
  | heightVal (n : Nat)
deriving DecidableEq

/-- A parameter store scoped by parameter id and sub-transaction id:
`GetParameter` yields `some` exactly when the parameter is present. -/
def ParamStore : Type := TxParameterID → SubTxIndex → Option ParamValue

/-- The builder state of `SharedTxBuilder` that `InitTx` reads and writes. -/
structure SharedTxBuilder where
  subTxID : SubTxIndex
  amount : Nat
  inputs : List PointLC
  outputs : List Nat
  outputCoins : List Nat
  offsetVal : ℤ
  sharedBlindingFactor : ℤ
  peerPublicSharedBlindingFactor : PointLC
deriving DecidableEq

/-- `SharedTxBuilder::GetSharedParameters`
(src/wallet/swaps/shared_tx_builder.cpp:39-43): reads `SharedBlindingFactor`
and `PeerPublicSharedBlindingFactor`, both from the `BEAM_LOCK_TX` scope —
the builder's own `subTxID` is never consulted — and succeeds exactly when
both are present. -/
def SharedTxBuilder.GetSharedParameters (store : ParamStore)
    (subTxID : SubTxIndex) : Bool :=
  (store TxParameterID.SharedBlindingFactor SubTxIndex.BEAM_LOCK_TX).isSome &&
    (store TxParameterID.PeerPublicSharedBlindingFactor SubTxIndex.BEAM_LOCK_TX).isSome

/-- The commitment computed by `SharedTxBuilder::InitInput`
(src/wallet/swaps/shared_tx_builder.cpp:67-81): start from zero, add
`amount·H` via `Tag::AddValue`, add `G·m_SharedBlindingFactor`, then add
`m_PeerPublicSharedBlindingFactor`. -/
def SharedTxBuilder.initInputCommitment (amount : Nat) (sharedBlindingFactor : ℤ)
    (peerPublicSharedBlindingFactor : PointLC) : PointLC :=
  tagAddValue (0 : PointLC) amount + mulG sharedBlindingFactor +
    peerPublicSharedBlindingFactor

/-- `SharedTxBuilder::InitInput`: appends the shared-UTXO commitment to the
builder's inputs (the `m_Offset += m_SharedBlindingFactor` line is commented
out in the source and therefore absent here). -/
def SharedTxBuilder.InitInput (b : SharedTxBuilder) : SharedTxBuilder :=
  { b with inputs := b.inputs ++
      [SharedTxBuilder.initInputCommitment b.amount b.sharedBlindingFactor
        b.peerPublicSharedBlindingFactor] }

/-- `SharedTxBuilder::InitOutput` (src/wallet/swaps/shared_tx_builder.cpp:83-106):
appends one output of the builder's amount and records its coin id; the two
offset-adjusting lines are commented out in the source and therefore absent
here. The fresh shared coin id is passed explicitly. -/
def SharedTxBuilder.InitOutput (sharedCoinId : Nat) (b : SharedTxBuilder) :
    SharedTxBuilder :=
  { b with outputs := b.outputs ++ [b.amount],
           outputCoins := b.outputCoins ++ [sharedCoinId] }

/-- Modelled from the spec: `BaseTxBuilder::FinalizeOutputs` (base builder, not
in src/) finalises the already-created outputs, returning whether the
transaction fits; it adds or removes nothing tracked here. -/
def SharedTxBuilder.FinalizeOutputs (b : SharedTxBuilder) : SharedTxBuilder × Bool :=
  (b, true)

/-- Modelled from the spec: `BaseTxBuilder::GenerateOffset` (base builder, not
in src/) draws a fresh random blinding offset for the transaction; the fresh
scalar is passed explicitly. It touches nothing but the offset. -/
def SharedTxBuilder.GenerateOffset (fresh : ℤ) (b : SharedTxBuilder) : SharedTxBuilder :=
  { b with offsetVal := fresh }

/-- `SharedTxBuilder::InitTx` (src/wallet/swaps/shared_tx_builder.cpp:45-65):
the owner selects the shared UTXO as input, creates its output and finalises;
the non-owner side does nothing (the historical `InitOffset` call is commented
out). Both sides then generate the offset. -/
def SharedTxBuilder.InitTx (isTxOwner : Bool) (sharedCoinId : Nat) (fresh : ℤ)
    (b : SharedTxBuilder) : SharedTxBuilder :=
  if isTxOwner then
    SharedTxBuilder.GenerateOffset fresh
      (SharedTxBuilder.FinalizeOutputs
        (SharedTxBuilder.InitOutput sharedCoinId (SharedTxBuilder.InitInput b))).1
  else
    SharedTxBuilder.GenerateOffset fresh b

/-- Modelled from the spec: the native-chain lock-time constant
`kBeamLockTimeInBlocks` (swap transaction code, not in src/), "default 1·24·6
blocks on the native chain". -/
def kBeamLockTimeInBlocks : Nat := 1 * 24 * 6

/-- `SharedTxBuilder::InitMinHeight`
(src/wallet/swaps/shared_tx_builder.cpp:114-128): keep an already-stored
per-sub-tx `MinHeight`; otherwise inherit the main transaction's `MinHeight`,
adding `kBeamLockTimeInBlocks` exactly for the `BEAM_REFUND_TX` sub-tx. -/
def SharedTxBuilder.InitMinHeight (storedMinHeight : Option Nat)
    (mainMinHeight : Nat) (subTxID : SubTxIndex) : Nat :=
  match storedMinHeight with
  | some mh => mh
  | none =>
      if subTxID = SubTxIndex.BEAM_REFUND_TX then mainMinHeight + kBeamLockTimeInBlocks
      else mainMinHeight

/-! ## Bitcoin settings (src/wallet/bitcoin/bitcoin_settings.h) -/

/-- `SwapSecondSideChainType` of the external chain. -/
inductive SwapSecondSideChainType
  | Mainnet
  | Testnet
  | Regtest
deriving DecidableEq, Repr

/-- `BitcoinSettings` (src/wallet/bitcoin/bitcoin_settings.h:44-67): the
member defaults of the settings class. -/
structure BitcoinSettings where
  feeRate : Nat
  txMinConfirmations : Nat
  chainType : SwapSecondSideChainType
  lockTimeInBlocks : Nat
deriving DecidableEq, Repr

/-- A default-constructed `BitcoinSettings`: fee rate 0, 6 confirmations,
mainnet, lock time `2 * 24 * 6` blocks. -/
def defaultBitcoinSettings : BitcoinSettings :=
  { feeRate := 0
    txMinConfirmations := 6
    chainType := SwapSecondSideChainType.Mainnet
    lockTimeInBlocks := 2 * 24 * 6 }

/-- The spec's formula for the shared (multiparty) UTXO commitment:
`v·H + (x_s + x_r)·G`. -/
def sharedCommitmentSpec (v : Nat) (xs xr : ℤ) : PointLC :=
  mulH (v : ℤ) + mulG (xs + xr)

/-! ## Theorems -/

/-- C1: for a sender-initiated simple transfer of amount 4 with fee 2 from the
coin store {5,2,1,9} (all available) to an empty receiver, after completion the
sender's coins are {5 spent, 2 available, 1 spent, 9 available}, the receiver
holds exactly one available regular coin of value 4, each side's history holds
exactly one completed entry with the same tx id, amount 4 and fee 2, and the
sender's entry creation time is at most the receiver's. -/
theorem c1_single_transfer_scenario (txId t d : Nat) :
    (simpleTransfer txId 4 2 t d senderInitialState emptyWalletState).1.coins =
      [⟨0, 5, KeyType.Regular, CoinStatus.Spent, none, some txId⟩,
       ⟨1, 2, KeyType.Regular, CoinStatus.Available, none, none⟩,
       ⟨2, 1, KeyType.Regular, CoinStatus.Spent, none, some txId⟩,
       ⟨3, 9, KeyType.Regular, CoinStatus.Available, none, none⟩] ∧
    (simpleTransfer txId 4 2 t d senderInitialState emptyWalletState).2.coins =
      [⟨0, 4, KeyType.Regular, CoinStatus.Available, some txId, none⟩] ∧
    (simpleTransfer txId 4 2 t d senderInitialState emptyWalletState).1.history =
      [completedEntry txId 4 2 0 true t] ∧
    (simpleTransfer txId 4 2 t d senderInitialState emptyWalletState).2.history =
      [completedEntry txId 4 2 0 false (t + d)] ∧
    (completedEntry txId 4 2 0 true t).createTime ≤
      (completedEntry txId 4 2 0 false (t + d)).createTime := by
  refine ⟨rfl, rfl, rfl, rfl, Nat.le_add_right t d⟩

/-- C2: for an atomic swap of 3 native units (fee 1) against 2000 external
units from the coin store {5,2,1,9}, the receiver ends with exactly one
available native coin of value 3 created by the swap's tx id, the sender ends
with five coins whose last is an available change coin of value 1 created by
the swap's tx id, and the outcome does not depend on which peer initiates the
negotiation. -/
theorem c2_atomic_swap_scenario (txId : Nat) (b : Bool) :
    (swapCoins txId 3 1 2000 b senderInitialState emptyWalletState).2.coins =
      [⟨0, 3, KeyType.Regular, CoinStatus.Available, some txId, none⟩] ∧
    (swapCoins txId 3 1 2000 b senderInitialState emptyWalletState).1.coins =
      [⟨0, 5, KeyType.Regular, CoinStatus.Spent, none, some txId⟩,
       ⟨1, 2, KeyType.Regular, CoinStatus.Available, none, none⟩,
       ⟨2, 1, KeyType.Regular, CoinStatus.Available, none, none⟩,
       ⟨3, 9, KeyType.Regular, CoinStatus.Available, none, none⟩,
       ⟨4, 1, KeyType.Change, CoinStatus.Available, some txId, none⟩] ∧
    (swapCoins txId 3 1 2000 b senderInitialState emptyWalletState).1.coins.length = 5 ∧
    (∀ (b₁ b₂ : Bool) (sw rw : WalletState),
      swapCoins txId 3 1 2000 b₁ sw rw = swapCoins txId 3 1 2000 b₂ sw rw) := by
  refine ⟨rfl, rfl, rfl, fun b₁ b₂ sw rw => rfl⟩

/-- C8: splitting one available coinbase coin of value 40 into outputs
{11,12,13} with fee 2 yields exactly the coins {40 spent coinbase, 2 available
change, 11/12/13 available regular} and a single history entry with amount 36,
change 2, fee 2, completed. -/
theorem c8_split_scenario (txId t : Nat) :
    splitCoins txId [11, 12, 13] 2 t
        ⟨[⟨0, 40, KeyType.Coinbase, CoinStatus.Available, none, none⟩], []⟩ =
      ⟨[⟨0, 40, KeyType.Coinbase, CoinStatus.Spent, none, some txId⟩,
        ⟨1, 2, KeyType.Change, CoinStatus.Available, some txId, none⟩,
        ⟨2, 11, KeyType.Regular, CoinStatus.Available, some txId, none⟩,
        ⟨3, 12, KeyType.Regular, CoinStatus.Available, some txId, none⟩,
        ⟨4, 13, KeyType.Regular, CoinStatus.Available, some txId, none⟩],
       [completedEntry txId 36 2 2 true t]⟩ := by
  rfl

/-- C6: for a freshly initialised swap the refund sub-transaction's min-height
is the lock sub-transaction's min-height plus the native lock time; the native
lock time defaults to 1·24·6 blocks, the external (Bitcoin-side) lock time to
2·24·6 blocks, and the external lock time is strictly greater. -/
theorem c6_refund_lock_timing (mainMinHeight : Nat) :
    SharedTxBuilder.InitMinHeight none mainMinHeight SubTxIndex.BEAM_REFUND_TX =
      SharedTxBuilder.InitMinHeight none mainMinHeight SubTxIndex.BEAM_LOCK_TX +
        kBeamLockTimeInBlocks ∧
    kBeamLockTimeInBlocks = 1 * 24 * 6 ∧
    defaultBitcoinSettings.lockTimeInBlocks = 2 * 24 * 6 ∧
    kBeamLockTimeInBlocks < defaultBitcoinSettings.lockTimeInBlocks := by
  refine ⟨rfl, rfl, rfl, by decide⟩

/-- C7: the shared-UTXO commitment built by `SharedTxBuilder::InitInput` from a
side's own secret `x_s` and the peer's public point `x_r·G` equals the spec's
formula `v·H + (x_s + x_r)·G`. -/
theorem c7_shared_commitment (v : Nat) (xs xr : ℤ) :
    SharedTxBuilder.initInputCommitment v xs (mulG xr) = sharedCommitmentSpec v xs xr := by
  unfold SharedTxBuilder.initInputCommitment sharedCommitmentSpec tagAddValue mulG mulH
  simp [Prod.ext_iff, add_assoc]

/-- C9: on the non-owner side `SharedTxBuilder::InitTx` only runs the offset
generation: it adds no inputs, no outputs and no output coins, changes no other
builder state, and sets the offset to the freshly generated scalar — in
particular it does not fold the shared blinding factor into the offset, for any
builder state. -/
theorem c9_init_tx_non_owner_frame (sharedCoinId : Nat) (fresh : ℤ) (b : SharedTxBuilder) :
    SharedTxBuilder.InitTx false sharedCoinId fresh b =
      SharedTxBuilder.GenerateOffset fresh b ∧
    (SharedTxBuilder.InitTx false sharedCoinId fresh b).inputs = b.inputs ∧
    (SharedTxBuilder.InitTx false sharedCoinId fresh b).outputs = b.outputs ∧
    (SharedTxBuilder.InitTx false sharedCoinId fresh b).outputCoins = b.outputCoins ∧
    (SharedTxBuilder.InitTx false sharedCoinId fresh b).sharedBlindingFactor =
      b.sharedBlindingFactor ∧
    (SharedTxBuilder.InitTx false sharedCoinId fresh b).peerPublicSharedBlindingFactor =
      b.peerPublicSharedBlindingFactor ∧
    (SharedTxBuilder.InitTx false sharedCoinId fresh b).subTxID = b.subTxID ∧
    (SharedTxBuilder.InitTx false sharedCoinId fresh b).amount = b.amount ∧
    (SharedTxBuilder.InitTx false sharedCoinId fresh b).offsetVal = fresh := by
  refine ⟨rfl, rfl, rfl, rfl, rfl, rfl, rfl, rfl, rfl⟩

/-- C10: `SharedTxBuilder::GetSharedParameters` reads both shared blinding
parameters from the `BEAM_LOCK_TX` scope whatever the builder's own sub-tx id
is — the result is the same for every sub-tx id — and succeeds exactly when
both parameters are present in that scope. -/
theorem c10_get_shared_parameters_lock_scope (store : ParamStore) (s1 s2 : SubTxIndex) :
    SharedTxBuilder.GetSharedParameters store s1 =
      SharedTxBuilder.GetSharedParameters store s2 ∧
    (SharedTxBuilder.GetSharedParameters store s1 = true ↔
      (store TxParameterID.SharedBlindingFactor SubTxIndex.BEAM_LOCK_TX).isSome = true ∧
      (store TxParameterID.PeerPublicSharedBlindingFactor SubTxIndex.BEAM_LOCK_TX).isSome
        = true) := by
  refine ⟨rfl, ?_⟩
  simp [SharedTxBuilder.GetSharedParameters]

/-- The value of a sub-selection never exceeds the value of the list it was
drawn from. -/
theorem coinListSum_le_of_sublist {s t : List Coin} (h : s.Sublist t) :
    coinListSum s ≤ coinListSum t :=
  List.Sublist.sum_le_sum (h.map Coin.value) (fun a _ => Nat.zero_le a)

/-- When the available value cannot cover the target, no covering selection
exists. -/
theorem coveringSelections_eq_nil {cs : List Coin} {target : Nat}
    (h : coinListSum (availableCoins cs) < target) :
    coveringSelections cs target = [] := by
  unfold coveringSelections
  rw [List.filter_eq_nil_iff]
  intro s hs
  simp only [decide_eq_true_eq]
  intro hle
  exact absurd (le_trans hle (coinListSum_le_of_sublist (List.mem_sublists.1 hs)))
    (not_le.2 h)

/-- When the available value cannot cover the target, selection fails. -/
theorem selectCoins_eq_none {cs : List Coin} {target : Nat}
    (h : coinListSum (availableCoins cs) < target) :
    selectCoins cs target = none := by
  unfold selectCoins
  rw [coveringSelections_eq_nil h]
  rfl

/-- C3: when the requested amount plus fee exceeds the sender's available
value, the transfer changes no coin on either side; the sender's history gains
exactly one failed entry with reason `NoInputs` and the receiver's wallet —
coins and history — is completely unchanged. -/
theorem c3_insufficient_funds (txId amount fee t d : Nat) (sw rw : WalletState)
    (h : coinListSum (availableCoins sw.coins) < amount + fee) :
    simpleTransfer txId amount fee t d sw rw =
      ({ sw with history := sw.history ++
          [failedEntry txId amount fee TxFailureReason.NoInputs true t] }, rw) := by
  unfold simpleTransfer
  rw [selectCoins_eq_none h]

/-- The sender wallet after the second scenario transfer: coins
{5 spent, 2 available, 1 spent, 9 spent, 3 change available} and two completed
history rows. -/
def senderAfterSecondTransfer : WalletState :=
  ⟨[⟨0, 5, KeyType.Regular, CoinStatus.Spent, none, some 0⟩,
    ⟨1, 2, KeyType.Regular, CoinStatus.Available, none, none⟩,
    ⟨2, 1, KeyType.Regular, CoinStatus.Spent, none, some 0⟩,
    ⟨3, 9, KeyType.Regular, CoinStatus.Spent, none, some 1⟩,
    ⟨4, 3, KeyType.Change, CoinStatus.Available, some 1, none⟩],
   [completedEntry 0 4 2 0 true 0, completedEntry 1 6 0 3 true 1]⟩

/-- The receiver wallet after the second scenario transfer: coins
{4 available, 6 available} and two completed history rows. -/
def receiverAfterSecondTransfer : WalletState :=
  ⟨[⟨0, 4, KeyType.Regular, CoinStatus.Available, some 0, none⟩,
    ⟨1, 6, KeyType.Regular, CoinStatus.Available, some 1, none⟩],
   [completedEntry 0 4 2 0 false 0, completedEntry 1 6 0 0 false 1]⟩

/-- Witness for C3: requesting 6 with fee 0 from the state after the second
scenario transfer (available value 5) fails with `NoInputs` and changes no
coin. -/
theorem c3_insufficient_funds_witness :
    coinListSum (availableCoins senderAfterSecondTransfer.coins) < 6 + 0 ∧
    simpleTransfer 2 6 0 5 0 senderAfterSecondTransfer receiverAfterSecondTransfer =
      ({ senderAfterSecondTransfer with history := senderAfterSecondTransfer.history ++
          [failedEntry 2 6 0 TxFailureReason.NoInputs true 5] },
       receiverAfterSecondTransfer) :=
  ⟨by decide,
   c3_insufficient_funds 2 6 0 5 0 senderAfterSecondTransfer receiverAfterSecondTransfer
     (by decide)⟩

/-- One `update` brings any state to a fixed point of `update` at the same
height: a second invocation with no new events and no height change is the
identity. -/
theorem update_update (h : Nat) (s : TxState) :
    update h (update h s) = update h s := by
  obtain ⟨st, fr, mh, inp, ps, ko, fo⟩ := s
  by_cases hexp : mh < h <;>
    cases st <;> cases inp <;> cases ps <;> cases ko <;> cases fo <;>
      simp [update, isTerminalStatus, hexp]

/-- C5: `update` is idempotent — any number of further invocations with no new
events and no chain-height change leave the parameter state exactly as a
single invocation produced it. -/
theorem c5_update_idempotent (h n : Nat) (s : TxState) :
    Nat.iterate (update h) n (update h s) = update h s := by
  induction n with
  | zero => rfl
  | succ k ih => rw [Function.iterate_succ_apply, update_update, ih]

/-- C4: when the chain height has passed the shared max-height and neither
side's kernel is confirmed, one `update` on each non-terminal side fails it
with `TransactionExpired`; each side's history then holds exactly one failed
`TransactionExpired` entry, and the two sides' resulting status and failure
reason coincide — the failure is symmetric, driven only by the shared
max-height. -/
theorem c4_expiry_symmetric (txId amount fee ts tr m h : Nat) (ss rs : TxState)
    (hsm : ss.maxHeight = m) (hrm : rs.maxHeight = m) (hexp : m < h)
    (hsk : ss.kernelObserved = false) (hrk : rs.kernelObserved = false)
    (hst : isTerminalStatus ss.status = false)
    (hrt : isTerminalStatus rs.status = false) :
    sideHistory txId amount fee ts true (update h ss) =
      [⟨txId, amount, fee, 0, TxStatus.Failed,
        some TxFailureReason.TransactionExpired, true, ts⟩] ∧
    sideHistory txId amount fee tr false (update h rs) =
      [⟨txId, amount, fee, 0, TxStatus.Failed,
        some TxFailureReason.TransactionExpired, false, tr⟩] ∧
    (update h ss).status = (update h rs).status ∧
    (update h ss).failureReason = (update h rs).failureReason := by
  refine ⟨?_, ?_, ?_, ?_⟩ <;>
    simp [sideHistory, update, hst, hrt, hsm, hrm, hsk, hrk, hexp]

/-- Witness for C4: at height 2 with shared max-height 1, a sender mid-protocol
and a receiver still pending both expire with `TransactionExpired`. -/
theorem c4_expiry_symmetric_witness :
    (1 : Nat) < 2 ∧
    (sideHistory 0 4 2 3 true
        (update 2 ⟨TxStatus.InProgress, none, 1, true, false, false, true⟩) =
      [⟨0, 4, 2, 0, TxStatus.Failed,
        some TxFailureReason.TransactionExpired, true, 3⟩] ∧
    sideHistory 0 4 2 4 false
        (update 2 ⟨TxStatus.Pending, none, 1, false, false, false, true⟩) =
      [⟨0, 4, 2, 0, TxStatus.Failed,
        some TxFailureReason.TransactionExpired, false, 4⟩] ∧
    (update 2 (⟨TxStatus.InProgress, none, 1, true, false, false, true⟩ : TxState)).status =
      (update 2 (⟨TxStatus.Pending, none, 1, false, false, false, true⟩ : TxState)).status ∧
    (update 2 (⟨TxStatus.InProgress, none, 1, true, false, false, true⟩ : TxState)).failureReason =
      (update 2 (⟨TxStatus.Pending, none, 1, false, false, false, true⟩ : TxState)).failureReason) :=
  ⟨by decide,
   c4_expiry_symmetric 0 4 2 3 4 1 2
     ⟨TxStatus.InProgress, none, 1, true, false, false, true⟩
     ⟨TxStatus.Pending, none, 1, false, false, false, true⟩
     rfl rfl (by decide) rfl rfl rfl rfl⟩
